import Mathlib

/-!
Verification of the ansible-tc modules (tc_qdisc, tc_class, tc_filter and
module_utils/tc_utils) against their natural-language specification.

The Python sources are shallowly embedded: Python strings are represented as
`List Char` (`PyStr`), Python string methods (`split`, `partition`, `in`,
`lower`, `int(...)`) are modelled by executable Lean functions on char lists,
and each module's `main` is modelled as a pure function from the module
parameters and an environment (command runner, netifaces availability, check
mode flag) to a result together with the trace of external commands executed.
A Python exception that the source does not catch is modelled as the distinct
result `Result.pyerror` (for option-valued helpers, as `none`).
-/

namespace TCMod

/-- Python strings are modelled as lists of characters. -/
abbrev PyStr := List Char

/-- An external command is its argv list, as passed to `module.run_command`. -/
abbrev Cmd := List PyStr

/-- The trace of external commands a run has executed, in order. -/
abbrev Trace := List Cmd

/-! ## Python string primitives -/

/-- Model of Python `s.split(sep)` for a one-character separator: splits at
every occurrence of `sep`, keeping empty fragments, and always returns at
least one fragment. -/
def splitCh (sep : Char) : PyStr → List PyStr
  | [] => [[]]
  | c :: cs =>
    if c = sep then [] :: splitCh sep cs
    else
      match splitCh sep cs with
      | [] => [[c]]
      | g :: gs => (c :: g) :: gs

/-- Model of Python `s.partition(sep)` for a one-character separator:
`(before, found, after)` where the split happens at the first occurrence of
`sep`; `found` records whether the separator occurred (Python returns the
separator string itself there, or `""`). -/
def partCh (sep : Char) : PyStr → PyStr × Bool × PyStr
  | [] => ([], false, [])
  | c :: cs =>
    if c = sep then ([], true, cs)
    else
      let r := partCh sep cs
      (c :: r.1, r.2.1, r.2.2)

/-- Model of the Python substring test `needle in hay` on strings. -/
def pyIn (needle hay : PyStr) : Bool := decide (needle <:+: hay)

/-- Model of Python `str.lower` (ASCII, which covers every string the
modules compare). -/
def lowerList (s : PyStr) : PyStr := s.map Char.toLower

/-- Strip leading and trailing whitespace, as Python `int()` does before
parsing. -/
def stripWs (s : PyStr) : PyStr :=
  ((s.dropWhile Char.isWhitespace).reverse.dropWhile Char.isWhitespace).reverse

/-- Numeric value of a string of decimal digits. -/
def digitsToNat (s : PyStr) : Nat := s.foldl (fun a c => 10 * a + (c.toNat - 48)) 0

/-- Digit-string core of Python `int(s)`: succeeds on a nonempty run of
decimal digits. -/
def decCore (s : PyStr) : Option Int :=
  if !s.isEmpty && s.all Char.isDigit then some (digitsToNat s) else none

/-- Sign handling of Python `int(s)` after whitespace stripping. -/
def pyIntSigned : PyStr → Option Int
  | [] => none
  | c :: rest =>
    if c = '+' then decCore rest
    else if c = '-' then (decCore rest).map (fun n => -n)
    else decCore (c :: rest)

/-- Model of Python `int(s)` (base 10): optional surrounding whitespace,
optional sign, then a nonempty run of decimal digits; anything else raises
`ValueError`, modelled as `none`.  (The digit-grouping underscores accepted
by Python >= 3.6 are not modelled; no input the spec or claims mention uses
them.) -/
def pyIntDec (s : PyStr) : Option Int := pyIntSigned (stripWs s)

/-- Hexadecimal digit test. -/
def isHexDigitCh (c : Char) : Bool :=
  c.isDigit || ('a' ≤ c && c ≤ 'f') || ('A' ≤ c && c ≤ 'F')

/-- Value of a hexadecimal digit. -/
def hexDigitVal (c : Char) : Nat :=
  if c.isDigit then c.toNat - 48
  else if 'a' ≤ c && c ≤ 'f' then c.toNat - 87
  else c.toNat - 55

/-- Numeric value of a string of hexadecimal digits. -/
def hexToNat (s : PyStr) : Nat := s.foldl (fun a c => 16 * a + hexDigitVal c) 0

/-- Drop an optional `0x`/`0X` prefix, as Python `int(s, 16)` allows. -/
def stripHexMark : PyStr → PyStr
  | '0' :: 'x' :: rest => rest
  | '0' :: 'X' :: rest => rest
  | s => s

/-- Hex-digit core of Python `int(s, 16)`. -/
def hexCore (s : PyStr) : Option Int :=
  let t := stripHexMark s
  if !t.isEmpty && t.all isHexDigitCh then some (hexToNat t) else none

/-- Sign handling of Python `int(s, 16)` after whitespace stripping. -/
def pyIntHexSigned : PyStr → Option Int
  | [] => none
  | c :: rest =>
    if c = '+' then hexCore rest
    else if c = '-' then (hexCore rest).map (fun n => -n)
    else hexCore (c :: rest)

/-- Model of Python `int(s, 16)`: optional whitespace, optional sign,
optional `0x` prefix, then a nonempty run of hex digits. -/
def pyIntHex (s : PyStr) : Option Int := pyIntHexSigned (stripWs s)

/-- Model of Python `str(...)` applied to an int. -/
def pyStrOfInt (i : Int) : PyStr := (toString i).data

/-! ## tc_utils validators -/

/-- Embeds `tc_utils.validate_handle`: `handle.split(":")` must unpack into
exactly two parts (otherwise the `ValueError` is caught and the function
returns `False`); a nonempty minor part must equal `"0"`. -/
def validate_handle (handle : PyStr) : Bool :=
  match splitCh ':' handle with
  | [_, minor] => if minor.isEmpty then true else minor == ['0']
  | _ => false

/-- Embeds `tc_utils.validate_classid` (for the `classid`/`flowid` parameter
named by its second argument).  The unguarded `int(c_minor)` can raise
`ValueError`, modelled by `none`. -/
def validate_classid (parent cid : PyStr) : Option Bool :=
  let p_major := (partCh ':' parent).1
  let c := partCh ':' cid
  let c_major := c.1
  let c_minor := c.2.2
  if p_major ≠ c_major then some false
  else if c_minor.isEmpty then some false
  else
    match pyIntDec c_minor with
    | none => none
    | some n => some (decide (¬ n = 0))

/-- Embeds `tc_utils.set_action`. -/
inductive PState | present | absent
  deriving DecidableEq, Repr

/-- Embeds `tc_utils.set_action`: `present → "add"`, `absent → "del"`. -/
def set_action : PState → PyStr
  | .present => "add".data
  | .absent => "del".data

/-! ## tc_class: rate table, conversion and validation -/

/-- Embeds the `RATES` unit table of `tc_class`, as an association list. -/
def RATES : List (PyStr × Int) :=
  [("bit".data, 1), ("bps".data, 8),
   ("kbit".data, 1000), ("kbps".data, 8000),
   ("mbit".data, 1000000), ("mbps".data, 8000000),
   ("gbit".data, 1000000000), ("gbps".data, 8000000000)]

/-- Dictionary lookup in `RATES`; a missing key raises `KeyError` in the
source, modelled as `none`. -/
def ratesLookup (u : PyStr) : Option Int := RATES.lookup u

/-- Embeds the list comprehension
`["".join(x) for _, x in itertools.groupby(s, key=str.isdigit)]`:
the maximal runs of consecutive characters with equal `isdigit` key.
`groupRunsGo` carries the key of the current run and the (reversed)
run collected so far. -/
def groupRunsGo (f : Char → Bool) (k : Bool) (acc : PyStr) : PyStr → List PyStr
  | [] => [acc.reverse]
  | c :: cs =>
    if f c = k then groupRunsGo f k (c :: acc) cs
    else acc.reverse :: groupRunsGo f (f c) [c] cs

/-- Maximal runs of consecutive characters with equal `f`-key (Python
`itertools.groupby` with `"".join`). -/
def groupRuns (f : Char → Bool) : PyStr → List PyStr
  | [] => []
  | c :: cs => groupRunsGo f (f c) [c] cs

/-- Embeds `tc_class._convert` (the second definition in the source shadows
the first, but both have identical logic): split the string into digit /
non-digit runs, then `int(run 0) * RATES[run 1 .lower()]`.  An out-of-range
index, a failing `int`, or a missing unit raises, modelled as `none`. -/
def _convert (rate : PyStr) : Option Int :=
  let rs := groupRuns Char.isDigit rate
  match rs.get? 0, rs.get? 1 with
  | some r0, some r1 =>
    match pyIntDec r0 with
    | some n => (ratesLookup (lowerList r1)).map (fun m => n * m)
    | none => none
  | _, _ => none

/-- Shared core of `tc_class._validate_rate` and `tc_class._validate_ceil`
(the source duplicates the logic verbatim, with only the error messages
differing): requires exactly two digit/non-digit runs, an `int`-parsable
first run, and a unit whose lowercase form is in `RATES`. -/
def rate_syntax_check (s : PyStr) (msgNoNum msgBadUnit : PyStr) : Bool × PyStr :=
  let rs := groupRuns Char.isDigit s
  if rs.length ≠ 2 then (false, "Incorrect syntax".data)
  else
    match pyIntDec (rs.getD 0 []) with
    | none => (false, msgNoNum)
    | some _ =>
      if (ratesLookup (lowerList (rs.getD 1 []))).isNone then (false, msgBadUnit)
      else (true, [])

/-- Embeds `tc_class._validate_rate`.  (The source interpolates
`RATES.keys()` into the message; that Python-version-dependent rendering is
abbreviated here, and no claim depends on it.) -/
def _validate_rate (rate : PyStr) : Bool × PyStr :=
  rate_syntax_check rate "No number specified in rate".data
    "Invalid rate specified, please use one of RATES.keys".data

/-- Embeds `tc_class._validate_ceil`. -/
def _validate_ceil (ceil : PyStr) : Bool × PyStr :=
  rate_syntax_check ceil "No number specified in ceil".data
    "Invalid ceil specified, please use one of RATES.keys".data

/-! ## Inspector/differ parsers -/

/-- Index of the first element that contains `needle` as a substring —
the `idx[0]` of `idx = [i for i, s in enumerate(xs) if needle in s]`
(`none` when `idx` is empty). -/
def firstIdx (needle : PyStr) : List PyStr → Option Nat
  | [] => none
  | s :: rest =>
    if pyIn needle s then some 0 else (firstIdx needle rest).map (· + 1)

/-- Observed qdisc state, `_check_current_qdisc`'s three string constants. -/
inductive QdiscState | DEFAULT | MATCH | CHANGE
  deriving DecidableEq, Repr

/-- Observed class/filter state, the `NONE`/`MATCH`/`CHANGE` constants of
`tc_class` and `tc_filter`. -/
inductive ClsState | NONE | MATCH | CHANGE
  deriving DecidableEq, Repr

/-- The token list `_check_current_qdisc` inspects: the second-to-last
newline-separated line of the show output, split on spaces (source line
`get_current(...).split("\n")[-2].split(" ")`). -/
def qdisc_parse_tokens (out : PyStr) : List PyStr :=
  splitCh ' ' ((splitCh '\n' out).getD ((splitCh '\n' out).length - 2) [])

/-- Embeds `tc_qdisc._check_current_qdisc`, as a function of the
`tc qdisc show` output and the desired discipline and handle.  The source
indexes line `[-2]` and tokens `[1]`/`[2]`; an `IndexError` is modelled as
`none`. -/
def check_current_qdisc (out discipline handle : PyStr) : Option QdiscState :=
  let lines := splitCh '\n' out
  if lines.length < 2 then none
  else
    let toks := qdisc_parse_tokens out
    let pr := partCh ':' handle
    let joined := pr.1 ++ (if pr.2.1 then [':'] else [])
    match toks.get? 1 with
    | none => none
    | some t1 =>
      if t1 = "pfifo_fast".data then some .DEFAULT
      else if t1 = discipline then
        match toks.get? 2 with
        | none => none
        | some t2 => if t2 = joined then some .MATCH else some .CHANGE
      else some .CHANGE

/-- Embeds `tc_class._check_current_class`, as a function of the
`tc class show` output, the desired classid, and the (already defaulted)
rate and ceil parameters.  The source's `class_set[0] == [""]` test compares
a string to a list and is therefore always false in Python; it is omitted
as dead code.  Token `IndexError`s and `_convert` exceptions are `none`. -/
def check_current_class (out classid rate ceil : PyStr) : Option ClsState :=
  let lines := splitCh '\n' out
  match firstIdx classid lines with
  | none => some .NONE
  | some i =>
    let cls := splitCh ' ' (lines.getD i [])
    match cls.get? 7, cls.get? 9 with
    | some t7, some t9 =>
      match _convert rate, _convert t7, _convert ceil, _convert t9 with
      | some ur, some cr, some uc, some cc =>
        some (if ur ≠ cr ∨ uc ≠ cc then .CHANGE else .MATCH)
      | _, _, _, _ => none
    | _, _ => none

/-- Embeds `tc_filter._check_current_filter`, as a function of the
`tc filter show` output and the desired flowid, priority and port.  The
source's `filter_set[0] == [""]` test is dead code (string compared to
list), omitted.  The record spans two lines: the first line matching the
flowid (priority at token 6) and the line after it (port at token 3, up to
`/`, in hex).  Missing lines/tokens and failing `int` conversions raise,
modelled as `none`. -/
def check_current_filter (out flowid : PyStr) (priority port : Int) :
    Option ClsState :=
  let lines := splitCh '\n' out
  match firstIdx flowid lines with
  | none => some .NONE
  | some i =>
    let fls := splitCh ' ' (lines.getD i [])
    match lines.get? (i + 1) with
    | none => none
    | some ln2 =>
      let flm := splitCh ' ' ln2
      match fls.get? 6 with
      | none => none
      | some t6 =>
        match pyIntDec t6 with
        | none => none
        | some pr =>
          if priority ≠ pr then some .NONE
          else
            match flm.get? 3 with
            | none => none
            | some t3 =>
              match pyIntHex ((splitCh '/' t3).getD 0 []) with
              | none => none
              | some pv => if port ≠ pv then some .CHANGE else some .MATCH

/-! ## Command builders (tc_utils)

`module.get_bin_path("tc")` / `("ip")` are modelled as the plain binary
names. -/

/-- Embeds `tc_utils._build_generic_command`. -/
def _build_generic_command (tc_type action device : PyStr) : Cmd :=
  ["tc".data, tc_type, action, "dev".data, device]

/-- Embeds `tc_utils.build_qdisc_command` (parameters passed explicitly in
place of `module.params`). -/
def build_qdisc_command (device qdisc handle discipline action : PyStr) : Cmd :=
  let cmd := _build_generic_command "qdisc".data action device
  if action = "show".data then cmd
  else
    let cmd := cmd ++ [qdisc]
    if action = "del".data then cmd
    else cmd ++ ["handle".data, handle, discipline]

/-- Embeds `tc_utils.build_class_command`.  `ceil` is the effective ceil
(the module defaults it to `rate` before any non-show command is built). -/
def build_class_command (device parent classid discipline rate ceil action : PyStr) :
    Cmd :=
  let cmd := _build_generic_command "class".data action device
  if action = "show".data then cmd
  else
    let cmd := cmd ++ ["parent".data, parent, "classid".data, classid]
    if action = "del".data then cmd
    else cmd ++ [discipline, "rate".data, rate, "ceil".data, ceil]

/-- Embeds `tc_utils.build_filter_command`. -/
def build_filter_command (device parent : PyStr) (priority port : Int)
    (flowid action : PyStr) : Cmd :=
  let cmd := _build_generic_command "filter".data action device
  if action = "show".data then cmd
  else
    let cmd := cmd ++ ["parent".data, parent, "protocol".data, "ip".data,
                       "prio".data, pyStrOfInt priority, "u32".data]
    if action = "del".data then cmd
    else cmd ++ ["match".data, "ip".data, "dport".data, pyStrOfInt port,
                 "0xffff".data, "flowid".data, flowid]

/-- Embeds `tc_utils.build_filter_cgroup_command`.  The source applies
`str(...)` to the `handle` parameter, so an omitted handle (`None`)
renders as `"None"`. -/
def build_filter_cgroup_command (device parent : PyStr) (priority : Int)
    (handle : Option PyStr) (action : PyStr) : Cmd :=
  let cmd := _build_generic_command "filter".data action device
  if action = "show".data then cmd
  else
    let cmd := cmd ++ ["parent".data, parent, "prio".data, pyStrOfInt priority]
    if action = "del".data then cmd
    else cmd ++ ["handle".data, handle.getD "None".data, "cgroup".data]

/-! ## Module runs: parameters, environment, results, traces -/

/-- Parameters of a `tc_qdisc` task (after Ansible's own argument parsing). -/
structure QdiscParams where
  device : PyStr
  state : PState
  handle : PyStr
  qdisc : PyStr
  discipline : PyStr

/-- Parameters of a `tc_class` task.  `ceil` is `none` when omitted. -/
structure ClassParams where
  device : PyStr
  state : PState
  parent : PyStr
  classid : PyStr
  discipline : PyStr
  rate : PyStr
  ceil : Option PyStr

/-- Parameters of a `tc_filter` task.  `handle` is `none` when omitted. -/
structure FilterParams where
  device : PyStr
  state : PState
  parent : PyStr
  flowid : PyStr
  priority : Int
  port : Int
  cgroup : Bool
  handle : Option PyStr

/-- The environment of a run: whether the `netifaces` library imports (and
its interface list), the behaviour of `module.run_command` (exit code,
stdout, stderr per argv), and `module.check_mode`. -/
structure Env where
  netifaces : Option (List PyStr)
  run : Cmd → Int × PyStr × PyStr
  checkMode : Bool

/-- The keyword arguments a run passes to `module.exit_json`. -/
structure ExitInfo where
  changed : Bool := false
  skipped : Bool := false
  command : Option Cmd := none
  msg : Option PyStr := none
  deriving DecidableEq, Repr

/-- The keyword arguments a run passes to `module.fail_json`.  Validation
failures never set `rc`; external-tool failures always set it to the tool's
nonzero exit code. -/
structure FailInfo where
  msg : PyStr := []
  rc : Option Int := none
  device : Option PyStr := none
  handle : Option PyStr := none
  parent : Option PyStr := none
  classid : Option PyStr := none
  flowid : Option PyStr := none
  rate : Option PyStr := none
  ceil : Option PyStr := none
  deriving DecidableEq, Repr

/-- Outcome of a module run: a normal exit, a failure exit, or an uncaught
Python exception. -/
inductive Result
  | exit (e : ExitInfo)
  | fail (f : FailInfo)
  | pyerror
  deriving DecidableEq, Repr

/-- A tc invocation that mutates kernel state: binary `tc` with an action
other than `show` (the action is argv index 2 in every builder). -/
def mutatingTc (c : Cmd) : Bool :=
  match c with
  | b :: _ :: a :: _ => b == "tc".data && !(a == "show".data)
  | _ => false

/-- The mutating tc invocations of a trace. -/
def mutTrace (tr : Trace) : Trace := tr.filter mutatingTc

/-! ## Shared validators that consult the environment -/

/-- Embeds `tc_utils.validate_device`: via `netifaces.interfaces()` when the
library imports, else substring search in the output of `ip a` (whose
nonzero exit is a `fail_json`). -/
def validate_device (env : Env) (device : PyStr) : Except Result Bool × Trace :=
  match env.netifaces with
  | some ifs => (.ok (ifs.contains device), [])
  | none =>
    let cmd := ["ip".data, "a".data]
    let r := env.run cmd
    if r.1 ≠ 0 then (.error (.fail { msg := r.2.2, rc := some r.1 }), [cmd])
    else (.ok (pyIn device r.2.1), [cmd])

/-- Embeds `tc_utils.validate_parent`: token 2 of the whole
`tc qdisc show dev <device>` output (split on single spaces) must equal the
parent's major joined with its separator.  (`get_current("qdisc", ...)`
builds the qdisc show command, which uses only the device parameter.)  A
missing token 2 raises `IndexError`. -/
def validate_parent (env : Env) (parent device : PyStr) :
    Except Result Bool × Trace :=
  let cmd := _build_generic_command "qdisc".data "show".data device
  let r := env.run cmd
  if r.1 ≠ 0 then (.error (.fail { msg := r.2.2, rc := some r.1 }), [cmd])
  else
    let qdisc_set := splitCh ' ' r.2.1
    let pr := partCh ':' parent
    match qdisc_set.get? 2 with
    | none => (.error .pyerror, [cmd])
    | some t2 =>
      (.ok (t2 == pr.1 ++ (if pr.2.1 then [':'] else [])), [cmd])

/-! ## Failure messages (verbatim from the sources; the ASCII apostrophe is
spelled `Char.ofNat 39`) -/

/-- ASCII apostrophe. -/
def apos : Char := Char.ofNat 39

/-- Message of the device-validation failure (all three modules). -/
def msg_no_device : PyStr :=
  "Device doesn".data ++ apos :: "t exist on machine".data

/-- Message of the qdisc handle-validation failure. -/
def msg_qdisc_handle : PyStr :=
  ("Invalid handle syntax, check " ++
   "http://tldp.org/HOWTO/Traffic-Control-HOWTO/components.html#c-handle" ++
   " to see valid syntax").data

/-- Message of the parent handle-validation failure (tc_class interpolates
the URL via `%s`, tc_filter writes it literally; the texts coincide). -/
def msg_parent_handle : PyStr :=
  ("Invalid parent handle, check " ++
   "http://tldp.org/HOWTO/Traffic-Control-HOWTO/components.html#c-handle" ++
   " to see valid syntax").data

/-- Message of the parent-existence failure. -/
def msg_parent_missing : PyStr := "Parent handle does not exist.".data

/-- Message of the classid-validation failure in tc_class. -/
def msg_bad_classid : PyStr :=
  "Invalid classid. Either the major number didn".data ++
  apos :: "t match the parent or the minor number was equal to 0".data

/-- Message of the flowid-validation failure in tc_filter. -/
def msg_bad_flowid : PyStr :=
  "Invalid flowid. Either the major number didn".data ++
  apos :: "t match the parent or the minor number was equal to 0".data

/-- Message of the missing-target-class failure in tc_filter
(the FilterTargetMissing error of the spec). -/
def msg_no_class : PyStr := "Cannot create a filter for a non existant class".data

/-! ## tc_qdisc main -/

/-- Validation phase of `tc_qdisc.main` (everything before the check-mode
branch): device existence, then handle syntax. -/
def qdisc_validate (p : QdiscParams) (env : Env) : Except Result Unit × Trace :=
  let d := validate_device env p.device
  match d.1 with
  | .error r => (.error r, d.2)
  | .ok dok =>
    if dok = false then
      (.error (.fail { device := some p.device, msg := msg_no_device }), d.2)
    else if validate_handle p.handle = false then
      (.error (.fail { handle := some p.handle, msg := msg_qdisc_handle }), d.2)
    else (.ok (), d.2)

/-- The tail of `tc_qdisc.main` shared by all paths that reach line 161:
exit unchanged on `DEFAULT`+absent, otherwise run the action command. -/
def qdisc_tail (p : QdiscParams) (env : Env) (cur : QdiscState) (tr : Trace) :
    Result × Trace :=
  if cur = .DEFAULT ∧ p.state = .absent then (.exit { changed := false }, tr)
  else
    let cmd := build_qdisc_command p.device p.qdisc p.handle p.discipline
      (set_action p.state)
    let r := env.run cmd
    if r.1 ≠ 0 then (.fail { msg := r.2.2, rc := some r.1 }, tr ++ [cmd])
    else (.exit { changed := true, msg := some r.2.1 }, tr ++ [cmd])

/-- Action phase of `tc_qdisc.main` (from the check-mode branch on): in
check mode exit `skipped` with the would-be command in the result; otherwise
inspect the current qdisc and follow the decision policy, deleting first
when it differs and the desired state is `present`. -/
def qdisc_act (p : QdiscParams) (env : Env) : Result × Trace :=
  if env.checkMode then
    (.exit { skipped := true,
             command := some (build_qdisc_command p.device p.qdisc p.handle
               p.discipline (set_action p.state)) }, [])
  else
    let showCmd := build_qdisc_command p.device p.qdisc p.handle p.discipline
      "show".data
    let r := env.run showCmd
    if r.1 ≠ 0 then (.fail { msg := r.2.2, rc := some r.1 }, [showCmd])
    else
      match check_current_qdisc r.2.1 p.discipline p.handle with
      | none => (.pyerror, [showCmd])
      | some cur =>
        if cur = .MATCH ∧ p.state = .present then
          (.exit { changed := false }, [showCmd])
        else if cur = .CHANGE ∧ p.state = .present then
          let dcmd := build_qdisc_command p.device p.qdisc p.handle
            p.discipline "del".data
          let rd := env.run dcmd
          if rd.1 ≠ 0 then
            (.fail { msg := rd.2.2, rc := some rd.1 }, [showCmd, dcmd])
          else qdisc_tail p env cur [showCmd, dcmd]
        else qdisc_tail p env cur [showCmd]

/-- Embeds `tc_qdisc.main`: validation phase, then action phase. -/
def qdisc_main (p : QdiscParams) (env : Env) : Result × Trace :=
  let v := qdisc_validate p env
  match v.1 with
  | .error r => (r, v.2)
  | .ok _ => let a := qdisc_act p env; (a.1, v.2 ++ a.2)

/-! ## tc_class main -/

/-- The ceil-independent part of `tc_class.main`'s validation: device,
parent syntax, parent existence, classid consistency, rate syntax. -/
def class_validate_pre (device parent classid rate : PyStr) (env : Env) :
    Except Result Unit × Trace :=
  let d := validate_device env device
  match d.1 with
  | .error r => (.error r, d.2)
  | .ok dok =>
    if dok = false then
      (.error (.fail { device := some device, msg := msg_no_device }), d.2)
    else if validate_handle parent = false then
      (.error (.fail { parent := some parent, msg := msg_parent_handle }), d.2)
    else
      let pres := validate_parent env parent device
      let tr := d.2 ++ pres.2
      match pres.1 with
      | .error r => (.error r, tr)
      | .ok pok =>
        if pok = false then
          (.error (.fail { parent := some parent, msg := msg_parent_missing }),
           tr)
        else
          match validate_classid parent classid with
          | none => (.error .pyerror, tr)
          | some cok =>
            if cok = false then
              (.error (.fail { classid := some classid, msg := msg_bad_classid }),
               tr)
            else
              let rr := _validate_rate rate
              if rr.1 = false then
                (.error (.fail { rate := some rate, msg := rr.2 }), tr)
              else (.ok (), tr)

/-- Validation phase of `tc_class.main`: the ceil-independent validations,
then ceil defaulting (a falsy ceil — omitted or empty — is replaced by the
rate) or ceil syntax.  Returns the effective ceil. -/
def class_validate (p : ClassParams) (env : Env) : Except Result PyStr × Trace :=
  let v := class_validate_pre p.device p.parent p.classid p.rate env
  match v.1 with
  | .error r => (.error r, v.2)
  | .ok _ =>
    match p.ceil with
    | none => (.ok p.rate, v.2)
    | some c =>
      if c = [] then (.ok p.rate, v.2)
      else
        let cr := _validate_ceil c
        if cr.1 = false then
          (.error (.fail { ceil := some c, msg := cr.2 }), v.2)
        else (.ok c, v.2)

/-- Action phase of `tc_class.main` with the effective ceil `ce`: check
mode exits `skipped` (the would-be command is only passed to
`module.debug`, not to `exit_json`); otherwise inspect, exit unchanged on
`MATCH`+present or `NONE`+absent, map `CHANGE`+present to the `change`
action, and run the command. -/
def class_act (p : ClassParams) (ce : PyStr) (env : Env) : Result × Trace :=
  if env.checkMode then (.exit { skipped := true }, [])
  else
    let showCmd := _build_generic_command "class".data "show".data p.device
    let r := env.run showCmd
    if r.1 ≠ 0 then (.fail { msg := r.2.2, rc := some r.1 }, [showCmd])
    else
      match check_current_class r.2.1 p.classid p.rate ce with
      | none => (.pyerror, [showCmd])
      | some cur =>
        if cur = .MATCH ∧ p.state = .present then
          (.exit { changed := false }, [showCmd])
        else if cur = .NONE ∧ p.state = .absent then
          (.exit { changed := false }, [showCmd])
        else
          let action :=
            if cur = .CHANGE ∧ p.state = .present then "change".data
            else set_action p.state
          let cmd := build_class_command p.device p.parent p.classid
            p.discipline p.rate ce action
          let r2 := env.run cmd
          if r2.1 ≠ 0 then
            (.fail { msg := r2.2.2, rc := some r2.1 }, [showCmd, cmd])
          else (.exit { changed := true }, [showCmd, cmd])

/-- Embeds `tc_class.main`. -/
def class_main (p : ClassParams) (env : Env) : Result × Trace :=
  let v := class_validate p env
  match v.1 with
  | .error r => (r, v.2)
  | .ok ce => let a := class_act p ce env; (a.1, v.2 ++ a.2)

/-! ## tc_filter main -/

/-- Validation phase of `tc_filter.main`: device, parent syntax, parent
existence, flowid consistency, then existence of a class matching the
flowid (substring search in the `tc class show` output). -/
def filter_validate (p : FilterParams) (env : Env) : Except Result Unit × Trace :=
  let d := validate_device env p.device
  match d.1 with
  | .error r => (.error r, d.2)
  | .ok dok =>
    if dok = false then
      (.error (.fail { device := some p.device, msg := msg_no_device }), d.2)
    else if validate_handle p.parent = false then
      (.error (.fail { parent := some p.parent, msg := msg_parent_handle }), d.2)
    else
      let pres := validate_parent env p.parent p.device
      let tr := d.2 ++ pres.2
      match pres.1 with
      | .error r => (.error r, tr)
      | .ok pok =>
        if pok = false then
          (.error (.fail { parent := some p.parent, msg := msg_parent_missing }),
           tr)
        else
          match validate_classid p.parent p.flowid with
          | none => (.error .pyerror, tr)
          | some cok =>
            if cok = false then
              (.error (.fail { flowid := some p.flowid, msg := msg_bad_flowid }),
               tr)
            else
              let cmd := _build_generic_command "class".data "show".data p.device
              let r := env.run cmd
              if r.1 ≠ 0 then
                (.error (.fail { msg := r.2.2, rc := some r.1 }), tr ++ [cmd])
              else if pyIn p.flowid r.2.1 = false then
                (.error (.fail { flowid := some p.flowid, msg := msg_no_class }),
                 tr ++ [cmd])
              else (.ok (), tr ++ [cmd])

/-- The command that creates or deletes the filter: the u32 builder, or the
cgroup builder when the cgroup flag is set. -/
def filter_create_cmd (p : FilterParams) (action : PyStr) : Cmd :=
  if p.cgroup ≠ true then
    build_filter_command p.device p.parent p.priority p.port p.flowid action
  else build_filter_cgroup_command p.device p.parent p.priority p.handle action

/-- The tail of `tc_filter.main` shared by all paths that reach line 216:
exit unchanged on `NONE`+absent, otherwise run the create/delete command. -/
def filter_tail (p : FilterParams) (env : Env) (cur : ClsState) (tr : Trace) :
    Result × Trace :=
  if cur = .NONE ∧ p.state = .absent then (.exit { changed := false }, tr)
  else
    let cmd := filter_create_cmd p (set_action p.state)
    let r := env.run cmd
    if r.1 ≠ 0 then (.fail { msg := r.2.2, rc := some r.1 }, tr ++ [cmd])
    else (.exit { changed := true }, tr ++ [cmd])

/-- Action phase of `tc_filter.main`: check mode exits `skipped` (command
only debug-logged); otherwise inspect, exit unchanged on `MATCH`+present,
delete first (with the u32 builder) on `CHANGE`+present, then the shared
tail. -/
def filter_act (p : FilterParams) (env : Env) : Result × Trace :=
  if env.checkMode then (.exit { skipped := true }, [])
  else
    let showCmd := _build_generic_command "filter".data "show".data p.device
    let r := env.run showCmd
    if r.1 ≠ 0 then (.fail { msg := r.2.2, rc := some r.1 }, [showCmd])
    else
      match check_current_filter r.2.1 p.flowid p.priority p.port with
      | none => (.pyerror, [showCmd])
      | some cur =>
        if cur = .MATCH ∧ p.state = .present then
          (.exit { changed := false }, [showCmd])
        else if cur = .CHANGE ∧ p.state = .present then
          let dcmd := build_filter_command p.device p.parent p.priority p.port
            p.flowid "del".data
          let rd := env.run dcmd
          if rd.1 ≠ 0 then
            (.fail { msg := rd.2.2, rc := some rd.1 }, [showCmd, dcmd])
          else filter_tail p env cur [showCmd, dcmd]
        else filter_tail p env cur [showCmd]

/-- Embeds `tc_filter.main`. -/
def filter_main (p : FilterParams) (env : Env) : Result × Trace :=
  let v := filter_validate p env
  match v.1 with
  | .error r => (r, v.2)
  | .ok _ => let a := filter_act p env; (a.1, v.2 ++ a.2)

/-! ## Concrete fixtures used by witnesses and counterexamples -/

/-- Sample `tc qdisc show` output: an htb qdisc with handle `1:`. -/
def sample_qdisc_out : PyStr := "qdisc htb 1: root\n".data

/-- Sample `tc class show` output: one htb class `1:1` at 10 Mbit. -/
def sample_class_out : PyStr :=
  "class htb 1:1 root prio 0 rate 10Mbit ceil 10Mbit\n".data

/-- Sample `tc filter show` output: one u32 filter at priority 5 matching
destination port 0x50 = 80, sending to flowid `1:1` (the record spans two
lines, as tc prints it). -/
def sample_filter_out : PyStr :=
  ("filter parent 1: protocol ip pref 5 u32 flowid 1:1\n" ++
   "  match 00000050/0000ffff at 20\n").data

/-- A concrete environment: `netifaces` lists `eth0`, every command
succeeds, and the three show commands print the samples above. -/
def env0 : Env :=
  { netifaces := some ["eth0".data],
    run := fun c =>
      if c = _build_generic_command "qdisc".data "show".data "eth0".data then
        (0, sample_qdisc_out, [])
      else if c = _build_generic_command "class".data "show".data "eth0".data then
        (0, sample_class_out, [])
      else if c = _build_generic_command "filter".data "show".data "eth0".data then
        (0, sample_filter_out, [])
      else (0, [], []),
    checkMode := false }

/-- The same environment in check mode. -/
def env0check : Env := { env0 with checkMode := true }

/-- A qdisc task matching `sample_qdisc_out`. -/
def pQ0 : QdiscParams :=
  { device := "eth0".data, state := .present, handle := "1:0".data,
    qdisc := "root".data, discipline := "htb".data }

/-- A class task matching `sample_class_out` (ceil omitted). -/
def pC0 : ClassParams :=
  { device := "eth0".data, state := .present, parent := "1:0".data,
    classid := "1:1".data, discipline := "htb".data, rate := "10mbit".data,
    ceil := none }

/-- A filter task matching `sample_filter_out`. -/
def pF0 : FilterParams :=
  { device := "eth0".data, state := .present, parent := "1:0".data,
    flowid := "1:1".data, priority := 5, port := 80, cgroup := false,
    handle := none }

/-- A qdisc task whose device does not exist in `env0`. -/
def pQbad : QdiscParams := { pQ0 with device := "eth9".data }

/-- A class task whose classid minor part is not numeric. -/
def pC10 : ClassParams := { pC0 with classid := "1:x".data }

/-- A filter task whose flowid has no matching class in `sample_class_out`. -/
def pF9 : FilterParams := { pF0 with flowid := "1:9".data }

/-- A class task whose device does not exist in `env0`. -/
def pCbad : ClassParams := { pC0 with device := "eth9".data }

/-! ## Lemmas about the string primitives -/

theorem splitCh_ne_nil (sep : Char) (l : PyStr) : splitCh sep l ≠ [] := by
  induction l with
  | nil => simp [splitCh]
  | cons c cs ih =>
    simp only [splitCh]
    split
    · simp
    · rcases h : splitCh sep cs with _ | ⟨g, gs⟩
      · simp
      · simp

theorem splitCh_not_mem {sep : Char} {l : PyStr} (h : sep ∉ l) :
    splitCh sep l = [l] := by
  induction l with
  | nil => rfl
  | cons c cs ih =>
    simp only [List.mem_cons, not_or] at h
    simp only [splitCh, if_neg (Ne.symm h.1)]
    rw [ih h.2]

theorem splitCh_eq_single {sep : Char} {l a : PyStr}
    (h : splitCh sep l = [a]) : l = a ∧ sep ∉ a := by
  induction l generalizing a with
  | nil =>
    simp only [splitCh, List.cons.injEq] at h
    simp [← h.1]
  | cons c cs ih =>
    simp only [splitCh] at h
    split at h
    · exact absurd (List.cons.injEq _ _ _ _ ▸ h).2 (splitCh_ne_nil sep cs)
    · rcases hs : splitCh sep cs with _ | ⟨g, gs⟩
      · exact absurd hs (splitCh_ne_nil sep cs)
      · rw [hs] at h
        rcases List.cons.injEq _ _ _ _ ▸ h with ⟨h1, h2⟩
        subst h2
        obtain ⟨rfl, hg⟩ := ih hs
        subst h1
        refine ⟨rfl, ?_⟩
        simp only [List.mem_cons, not_or]
        rename_i hne
        exact ⟨Ne.symm hne, hg⟩

theorem splitCh_eq_pair {sep : Char} {l a b : PyStr}
    (h : splitCh sep l = [a, b]) :
    l = a ++ sep :: b ∧ sep ∉ a ∧ sep ∉ b := by
  induction l generalizing a with
  | nil => simp [splitCh] at h
  | cons c cs ih =>
    simp only [splitCh] at h
    split at h
    · rcases List.cons.injEq _ _ _ _ ▸ h with ⟨h1, h2⟩
      obtain ⟨rfl, hb⟩ := splitCh_eq_single h2
      rename_i hc
      subst hc h1
      simp [hb]
    · rcases hs : splitCh sep cs with _ | ⟨g, gs⟩
      · exact absurd hs (splitCh_ne_nil sep cs)
      · rw [hs] at h
        have h' : (c :: g) :: gs = [a, b] := h
        injection h' with h1 h2
        have hcs : splitCh sep cs = [g, b] := by rw [hs, h2]
        obtain ⟨hcse, hga, hgb⟩ := ih hcs
        subst h1
        rename_i hne
        refine ⟨by rw [hcse]; rfl, ?_, hgb⟩
        simp only [List.mem_cons, not_or]
        exact ⟨Ne.symm hne, hga⟩

theorem splitCh_append_sep {sep : Char} {a rest : PyStr} (h : sep ∉ a) :
    splitCh sep (a ++ sep :: rest) = a :: splitCh sep rest := by
  induction a with
  | nil => simp [splitCh]
  | cons c cs ih =>
    simp only [List.mem_cons, not_or] at h
    have hi : splitCh sep (cs ++ sep :: rest) = cs :: splitCh sep rest := ih h.2
    show splitCh sep (c :: (cs ++ sep :: rest)) = (c :: cs) :: splitCh sep rest
    simp only [splitCh, if_neg (Ne.symm h.1), hi]

/-- A separator-free string partitions trivially. -/
theorem partCh_not_mem {sep : Char} {l : PyStr} (h : sep ∉ l) :
    partCh sep l = (l, false, []) := by
  induction l with
  | nil => rfl
  | cons c cs ih =>
    simp only [List.mem_cons, not_or] at h
    simp [partCh, if_neg (Ne.symm h.1), ih h.2]

/-- Partition at the first separator occurrence. -/
theorem partCh_append_sep {sep : Char} {a rest : PyStr} (h : sep ∉ a) :
    partCh sep (a ++ sep :: rest) = (a, true, rest) := by
  induction a with
  | nil => simp [partCh]
  | cons c cs ih =>
    simp only [List.mem_cons, not_or] at h
    simp [partCh, if_neg (Ne.symm h.1), ih h.2]

/-! ## Claim C3: handle validation -/

/-- Claim C3: for every string `h`, `validate_handle h` is true iff `h`
contains exactly one colon and the substring after the colon is empty or
`"0"`; in particular `"1:0"` validates and `"1:1"` and `"1"` do not. -/
theorem claim_C3 :
    (∀ h : PyStr, validate_handle h = true ↔
      ∃ a b : PyStr, h = a ++ ':' :: b ∧ ':' ∉ a ∧ ':' ∉ b ∧
        (b = [] ∨ b = ['0'])) ∧
    validate_handle "1:0".data = true ∧
    validate_handle "1:1".data = false ∧
    validate_handle "1".data = false := by
  refine ⟨fun h => ⟨?_, ?_⟩, by decide, by decide, by decide⟩
  · intro hv
    unfold validate_handle at hv
    rcases hs : splitCh ':' h with _ | ⟨x, _ | ⟨minor, _ | ⟨z, tl⟩⟩⟩ <;>
      rw [hs] at hv
    · simp at hv
    · simp at hv
    · obtain ⟨hdec, hx, hm⟩ := splitCh_eq_pair hs
      refine ⟨x, minor, hdec, hx, hm, ?_⟩
      have hv' : (if minor.isEmpty then true else minor == ['0']) = true := hv
      by_cases he : minor.isEmpty
      · exact Or.inl (List.isEmpty_iff.mp he)
      · rw [if_neg he] at hv'
        exact Or.inr (by simpa using hv')
    · simp at hv
  · rintro ⟨a, b, rfl, ha, hb, hb2⟩
    unfold validate_handle
    rw [splitCh_append_sep ha, splitCh_not_mem hb]
    rcases hb2 with rfl | rfl <;> simp

/-- Witness for claim C3's equivalence at the concrete handle `"2:"`. -/
theorem claim_C3_witness : validate_handle ("2".data ++ ':' :: []) = true :=
  (claim_C3.1 ("2".data ++ ':' :: [])).mpr
    ⟨"2".data, [], rfl, by decide, by decide, Or.inl rfl⟩

/-! ## Claim C10: validate_classid is not total -/

theorem digit_not_ws {c : Char} (h : c.isDigit = true) : c.isWhitespace = false := by
  by_contra hw
  simp only [Bool.not_eq_false] at hw
  simp only [Char.isWhitespace, Bool.or_eq_true, decide_eq_true_eq,
    beq_iff_eq] at hw
  rcases hw with ((rfl | rfl) | rfl) | rfl <;> simp [Char.isDigit] at h

theorem dropWhile_ws_of_digits {s : PyStr} (hd : ∀ c ∈ s, c.isDigit = true) :
    s.dropWhile Char.isWhitespace = s := by
  cases s with
  | nil => rfl
  | cons c t =>
    rw [List.dropWhile_cons, if_neg]
    simp [digit_not_ws (hd c (by simp))]

theorem stripWs_of_digits {s : PyStr} (hd : ∀ c ∈ s, c.isDigit = true) :
    stripWs s = s := by
  unfold stripWs
  rw [dropWhile_ws_of_digits hd,
      dropWhile_ws_of_digits (fun c hc => hd c (List.mem_reverse.mp hc)),
      List.reverse_reverse]

theorem decCore_digits {s : PyStr} (hne : s ≠ []) (hd : ∀ c ∈ s, c.isDigit = true) :
    decCore s = some ((digitsToNat s : Nat) : Int) := by
  have h1 : s.isEmpty = false := by
    cases s with
    | nil => exact absurd rfl hne
    | cons c t => rfl
  have hcond : (!s.isEmpty && s.all Char.isDigit) = true := by
    rw [h1]
    simpa [List.all_eq_true] using hd
  unfold decCore
  rw [if_pos hcond]

theorem pyIntDec_digits {s : PyStr} (hne : s ≠ []) (hd : ∀ c ∈ s, c.isDigit = true) :
    pyIntDec s = some ((digitsToNat s : Nat) : Int) := by
  unfold pyIntDec
  rw [stripWs_of_digits hd]
  rcases s with _ | ⟨c, t⟩
  · exact absurd rfl hne
  · have hc : c.isDigit = true := hd c (by simp)
    have h1 : ¬ c = '+' := by rintro rfl; simp [Char.isDigit] at hc
    have h2 : ¬ c = '-' := by rintro rfl; simp [Char.isDigit] at hc
    simp only [pyIntSigned, if_neg h1, if_neg h2]
    exact decCore_digits hne hd

/-- Claim C10: `validate_classid` returns a boolean whenever the minor part
(the substring after the first colon of the classid) is empty or a run of
decimal digits, but on `parent="1:0"`, `classid="1:x"` the unguarded
`int(c_minor)` raises an uncontrolled exception instead of returning
`False`; a full `tc_class` run with that classid aborts with a Python
error rather than the documented invalid-classid failure. -/
theorem claim_C10 :
    (∀ parent cid : PyStr,
      ((partCh ':' cid).2.2 = [] ∨ ∀ c ∈ (partCh ':' cid).2.2, c.isDigit = true) →
      (validate_classid parent cid).isSome = true) ∧
    validate_classid "1:0".data "1:x".data = none ∧
    class_main pC10 env0 =
      (Result.pyerror,
       [_build_generic_command "qdisc".data "show".data "eth0".data]) := by
  refine ⟨fun parent cid hmin => ?_, by decide, by decide⟩
  simp only [validate_classid]
  split
  · rfl
  · split
    · rfl
    · rename_i hmaj hemp
      have hne : (partCh ':' cid).2.2 ≠ [] := by
        intro he
        rw [he] at hemp
        exact hemp rfl
      have hdig : ∀ c ∈ (partCh ':' cid).2.2, c.isDigit = true := by
        rcases hmin with he | hd
        · exact absurd he hne
        · exact hd
      rw [pyIntDec_digits hne hdig]
      rfl

/-- Witness for claim C10's universally quantified part at a decimal
minor. -/
theorem claim_C10_witness :
    (validate_classid "1:0".data "1:5".data).isSome = true :=
  claim_C10.1 "1:0".data "1:5".data (Or.inr (by decide))

/-! ## Claim C8: rate conversion -/

theorem groupRunsGo_all {f : Char → Bool} {k : Bool} {acc s : PyStr}
    (h : ∀ c ∈ s, f c = k) :
    groupRunsGo f k acc s = [acc.reverse ++ s] := by
  induction s generalizing acc with
  | nil => simp [groupRunsGo]
  | cons c t ih =>
    rw [groupRunsGo, if_pos (h c (by simp))]
    rw [ih (fun x hx => h x (by simp [hx]))]
    simp

theorem groupRunsGo_switch {f : Char → Bool} {k b : Bool} {acc d u : PyStr}
    (hd : ∀ c ∈ d, f c = k) (hu : ∀ c ∈ u, f c = b) (hb : b ≠ k)
    (hune : u ≠ []) :
    groupRunsGo f k acc (d ++ u) = [acc.reverse ++ d, u] := by
  induction d generalizing acc with
  | nil =>
    rcases u with _ | ⟨c2, u2⟩
    · exact absurd rfl hune
    · have hc2 : f c2 = b := hu c2 (by simp)
      simp only [List.nil_append, groupRunsGo]
      rw [if_neg (by rw [hc2]; exact hb), hc2]
      rw [groupRunsGo_all (fun x hx => hu x (by simp [hx]))]
      simp
  | cons c t ih =>
    rw [List.cons_append, groupRunsGo, if_pos (hd c (by simp))]
    rw [ih (fun x hx => hd x (by simp [hx]))]
    simp

/-- The groupby of a digit run followed by a non-digit run is exactly those
two runs. -/
theorem groupRuns_digit_unit {d u : PyStr} (hdne : d ≠ [])
    (hd : ∀ c ∈ d, c.isDigit = true) (hune : u ≠ [])
    (hu : ∀ c ∈ u, c.isDigit = false) :
    groupRuns Char.isDigit (d ++ u) = [d, u] := by
  rcases d with _ | ⟨c, t⟩
  · exact absurd rfl hdne
  · have hc : Char.isDigit c = true := hd c (by simp)
    show groupRunsGo Char.isDigit (Char.isDigit c) [c] (t ++ u) = [c :: t, u]
    rw [hc,
        groupRunsGo_switch (fun x hx => hd x (by simp [hx])) hu
          (by simp) hune]
    simp

/-- Closed form of `_convert` on a digit run followed by a non-digit run. -/
theorem _convert_digit_unit {d u : PyStr} (hdne : d ≠ [])
    (hd : ∀ c ∈ d, c.isDigit = true) (hune : u ≠ [])
    (hu : ∀ c ∈ u, c.isDigit = false) :
    _convert (d ++ u) =
      (ratesLookup (lowerList u)).map (fun m => ((digitsToNat d : Nat) : Int) * m) := by
  unfold _convert
  rw [groupRuns_digit_unit hdne hd hune hu]
  show (match pyIntDec d with
        | some n => (ratesLookup (lowerList u)).map (fun m => n * m)
        | none => none) = _
  rw [pyIntDec_digits hdne hd]

/-- Claim C8: `_convert "10Mbit" = 10000000`, `_convert "500Kbit" = 500000`;
on any digit run followed by a unit whose lowercase form is in the unit
table the conversion multiplies the number by the table entry, and the unit
lookup is case-insensitive: two casings of the same unit convert any digit
run equally. -/
theorem claim_C8 :
    _convert "10Mbit".data = some 10000000 ∧
    _convert "500Kbit".data = some 500000 ∧
    (∀ d u : PyStr, ∀ m : Int, d ≠ [] → (∀ c ∈ d, c.isDigit = true) →
      u ≠ [] → (∀ c ∈ u, c.isDigit = false) →
      ratesLookup (lowerList u) = some m →
      _convert (d ++ u) = some (((digitsToNat d : Nat) : Int) * m)) ∧
    (∀ d u₁ u₂ : PyStr, d ≠ [] → (∀ c ∈ d, c.isDigit = true) →
      u₁ ≠ [] → (∀ c ∈ u₁, c.isDigit = false) →
      u₂ ≠ [] → (∀ c ∈ u₂, c.isDigit = false) →
      lowerList u₁ = lowerList u₂ →
      _convert (d ++ u₁) = _convert (d ++ u₂)) := by
  refine ⟨by decide, by decide, ?_, ?_⟩
  · intro d u m hdne hd hune hu hm
    rw [_convert_digit_unit hdne hd hune hu, hm]
    rfl
  · intro d u₁ u₂ hdne hd h1ne h1 h2ne h2 hlow
    rw [_convert_digit_unit hdne hd h1ne h1,
        _convert_digit_unit hdne hd h2ne h2, hlow]

/-- Witness for claim C8's universally quantified parts at `"10mbit"` and
`"10Mbit"`. -/
theorem claim_C8_witness :
    _convert ("10".data ++ "mbit".data) = some 10000000 ∧
    _convert ("10".data ++ "mbit".data) = _convert ("10".data ++ "Mbit".data) :=
  ⟨by
    have h := claim_C8.2.2.1 "10".data "mbit".data 1000000 (by decide)
      (by decide) (by decide) (by decide) (by decide)
    simpa using h,
   claim_C8.2.2.2 "10".data "mbit".data "Mbit".data (by decide) (by decide)
     (by decide) (by decide) (by decide) (by decide) (by decide)⟩

/-! ## Claim C4: the filter differ -/

theorem getD_of_get? {α : Type} {l : List α} {i : Nat} {a d : α}
    (h : l.get? i = some a) : l.getD i d = a := by
  simp only [List.getD, ← List.get?_eq_getElem?, h]
  rfl

theorem firstIdx_eq_some {needle : PyStr} {lines : List PyStr} {i : Nat}
    {li : PyStr} (hget : lines.get? i = some li) (hm : pyIn needle li = true)
    (hbef : ∀ j, j < i → pyIn needle (lines.getD j []) = false) :
    firstIdx needle lines = some i := by
  induction lines generalizing i with
  | nil => simp at hget
  | cons s rest ih =>
    rcases i with _ | i
    · simp only [List.get?] at hget
      injection hget with hget
      subst hget
      simp [firstIdx, hm]
    · have h0 : pyIn needle s = false := by
        have := hbef 0 (Nat.succ_pos i)
        simpa [List.getD] using this
      rw [firstIdx, if_neg (by simp [h0])]
      rw [ih (by simpa [List.get?] using hget)
            (fun j hj => by
              have := hbef (j + 1) (Nat.succ_lt_succ hj)
              simpa [List.getD] using this)]
      rfl

/-- Claim C4: when some line of the filter show output contains the flowid,
the differ reads the first such line and the one after it, takes the
priority from token 6 of the first and the port from token 3 of the second
(up to `/`, in hex), and answers NONE on priority mismatch, CHANGE on port
mismatch, MATCH otherwise. -/
theorem claim_C4 : ∀ (out flowid : PyStr) (priority port : Int) (i : Nat)
    (li l2 t6 t3 : PyStr) (pr pv : Int),
    (splitCh '\n' out).get? i = some li →
    pyIn flowid li = true →
    (∀ j, j < i → pyIn flowid ((splitCh '\n' out).getD j []) = false) →
    (splitCh '\n' out).get? (i + 1) = some l2 →
    (splitCh ' ' li).get? 6 = some t6 →
    pyIntDec t6 = some pr →
    (splitCh ' ' l2).get? 3 = some t3 →
    pyIntHex ((splitCh '/' t3).getD 0 []) = some pv →
    check_current_filter out flowid priority port =
      some (if priority ≠ pr then ClsState.NONE
            else if port ≠ pv then ClsState.CHANGE else ClsState.MATCH) := by
  intro out flowid priority port i li l2 t6 t3 pr pv hget hm hbef hl2 ht6 hpr
    ht3 hpv
  simp only [check_current_filter]
  rw [firstIdx_eq_some hget hm hbef]
  dsimp only
  rw [getD_of_get? hget, hl2]
  dsimp only
  rw [ht6]
  dsimp only
  rw [hpr]
  dsimp only
  by_cases hp : priority ≠ pr
  · rw [if_pos hp, if_pos hp]
  · rw [if_neg hp, if_neg hp]
    rw [ht3]
    dsimp only
    rw [hpv]
    dsimp only
    by_cases hv : port ≠ pv
    · rw [if_pos hv, if_pos hv]
    · rw [if_neg hv, if_neg hv]

/-- Witness for claim C4 on the sample filter output. -/
theorem claim_C4_witness :
    check_current_filter sample_filter_out "1:1".data 5 80 =
      some (if (5 : Int) ≠ 5 then ClsState.NONE
            else if (80 : Int) ≠ 80 then ClsState.CHANGE else ClsState.MATCH) :=
  claim_C4 sample_filter_out "1:1".data 5 80 0
    "filter parent 1: protocol ip pref 5 u32 flowid 1:1".data
    "  match 00000050/0000ffff at 20".data "5".data "00000050/0000ffff".data
    5 80 (by decide) (by decide) (fun j hj => absurd hj (Nat.not_lt_zero j))
    (by decide) (by decide) (by decide) (by decide) (by decide)

/-! ## Claim C5: validation failures precede any mutation -/

theorem mutTrace_append (a b : Trace) :
    mutTrace (a ++ b) = mutTrace a ++ mutTrace b := by
  simp [mutTrace]

theorem validate_device_mut (env : Env) (d : PyStr) :
    mutTrace (validate_device env d).2 = [] := by
  unfold validate_device
  split
  · rfl
  · dsimp only
    split <;> rfl

theorem validate_parent_mut (env : Env) (parent device : PyStr) :
    mutTrace (validate_parent env parent device).2 = [] := by
  unfold validate_parent
  dsimp only
  split
  · rfl
  · split <;> rfl

theorem qdisc_validate_mut (p : QdiscParams) (env : Env) :
    mutTrace (qdisc_validate p env).2 = [] := by
  have hd := validate_device_mut env p.device
  simp only [qdisc_validate]
  split
  · exact hd
  · split
    · exact hd
    · split <;> exact hd

theorem class_validate_pre_mut (device parent classid rate : PyStr)
    (env : Env) :
    mutTrace (class_validate_pre device parent classid rate env).2 = [] := by
  have hd := validate_device_mut env device
  have hdp :
      mutTrace ((validate_device env device).2 ++
        (validate_parent env parent device).2) = [] := by
    rw [mutTrace_append, hd, validate_parent_mut env parent device]
    rfl
  simp only [class_validate_pre]
  repeat first
  | exact hd
  | exact hdp
  | split

theorem class_validate_mut (p : ClassParams) (env : Env) :
    mutTrace (class_validate p env).2 = [] := by
  have hp := class_validate_pre_mut p.device p.parent p.classid p.rate env
  simp only [class_validate]
  repeat first
  | exact hp
  | split

theorem filter_validate_mut (p : FilterParams) (env : Env) :
    mutTrace (filter_validate p env).2 = [] := by
  have hd := validate_device_mut env p.device
  have hdp :
      mutTrace ((validate_device env p.device).2 ++
        (validate_parent env p.parent p.device).2) = [] := by
    rw [mutTrace_append, hd, validate_parent_mut env p.parent p.device]
    rfl
  have hdpc :
      mutTrace (((validate_device env p.device).2 ++
        (validate_parent env p.parent p.device).2) ++
        [_build_generic_command "class".data "show".data p.device]) = [] := by
    rw [mutTrace_append, hdp]
    rfl
  simp only [filter_validate]
  repeat first
  | exact hd
  | exact hdp
  | exact hdpc
  | split

theorem qdisc_tail_fail_rc (p : QdiscParams) (env : Env) (cur : QdiscState)
    (tr : Trace) (f : FailInfo) (h : (qdisc_tail p env cur tr).1 = .fail f) :
    f.rc ≠ none := by
  simp only [qdisc_tail] at h
  split at h
  · simp at h
  · split at h
    · injection h with h2
      rw [← h2]
      simp
    · simp at h

theorem qdisc_act_fail_rc (p : QdiscParams) (env : Env) (f : FailInfo)
    (h : (qdisc_act p env).1 = .fail f) : f.rc ≠ none := by
  simp only [qdisc_act] at h
  split at h
  · simp at h
  · split at h
    · injection h with h2
      rw [← h2]
      simp
    · split at h
      · simp at h
      · split at h
        · simp at h
        · split at h
          · split at h
            · injection h with h2
              rw [← h2]
              simp
            · exact qdisc_tail_fail_rc _ _ _ _ f h
          · exact qdisc_tail_fail_rc _ _ _ _ f h

theorem class_act_fail_rc (p : ClassParams) (ce : PyStr) (env : Env)
    (f : FailInfo) (h : (class_act p ce env).1 = .fail f) : f.rc ≠ none := by
  simp only [class_act] at h
  split at h
  · simp at h
  · split at h
    · injection h with h2
      rw [← h2]
      simp
    · split at h
      · simp at h
      · split at h
        · simp at h
        · split at h
          · simp at h
          · split at h
            · split at h
              · injection h with h2
                rw [← h2]
                simp
              · simp at h
            · split at h
              · injection h with h2
                rw [← h2]
                simp
              · simp at h

theorem filter_tail_fail_rc (p : FilterParams) (env : Env) (cur : ClsState)
    (tr : Trace) (f : FailInfo) (h : (filter_tail p env cur tr).1 = .fail f) :
    f.rc ≠ none := by
  simp only [filter_tail] at h
  split at h
  · simp at h
  · split at h
    · injection h with h2
      rw [← h2]
      simp
    · simp at h

theorem filter_act_fail_rc (p : FilterParams) (env : Env) (f : FailInfo)
    (h : (filter_act p env).1 = .fail f) : f.rc ≠ none := by
  simp only [filter_act] at h
  split at h
  · simp at h
  · split at h
    · injection h with h2
      rw [← h2]
      simp
    · split at h
      · simp at h
      · split at h
        · simp at h
        · split at h
          · split at h
            · injection h with h2
              rw [← h2]
              simp
            · exact filter_tail_fail_rc _ _ _ _ f h
          · exact filter_tail_fail_rc _ _ _ _ f h

/-- Claim C5: in each of the three modules, a failure whose `fail_json`
carries no `rc` — exactly the validation failures; external-tool failures
always set `rc` — leaves a trace with no mutating tc command: only
(non-mutating) show commands and `ip a` can precede it. -/
theorem claim_C5 :
    (∀ (p : QdiscParams) (env : Env) (f : FailInfo),
      (qdisc_main p env).1 = .fail f → f.rc = none →
      mutTrace (qdisc_main p env).2 = []) ∧
    (∀ (p : ClassParams) (env : Env) (f : FailInfo),
      (class_main p env).1 = .fail f → f.rc = none →
      mutTrace (class_main p env).2 = []) ∧
    (∀ (p : FilterParams) (env : Env) (f : FailInfo),
      (filter_main p env).1 = .fail f → f.rc = none →
      mutTrace (filter_main p env).2 = []) := by
  refine ⟨fun p env f h hrc => ?_, fun p env f h hrc => ?_,
    fun p env f h hrc => ?_⟩
  · have hvm := qdisc_validate_mut p env
    simp only [qdisc_main] at h ⊢
    split at h
    · exact hvm
    · exact absurd hrc (qdisc_act_fail_rc p env f h)
  · have hvm := class_validate_mut p env
    simp only [class_main] at h ⊢
    split at h
    · exact hvm
    · rename_i ce hce
      exact absurd hrc (class_act_fail_rc p ce env f h)
  · have hvm := filter_validate_mut p env
    simp only [filter_main] at h ⊢
    split at h
    · exact hvm
    · exact absurd hrc (filter_act_fail_rc p env f h)

/-- Witness for claim C5: a qdisc run with a nonexistent device, a class
run with a nonexistent device, and a filter run whose flowid has no class,
all fail leaving a mutation-free trace. -/
theorem claim_C5_witness :
    mutTrace (qdisc_main pQbad env0).2 = [] ∧
    mutTrace (class_main pCbad env0).2 = [] ∧
    mutTrace (filter_main pF9 env0).2 = [] :=
  ⟨claim_C5.1 pQbad env0 { device := some "eth9".data, msg := msg_no_device }
     (by decide) rfl,
   claim_C5.2.1 pCbad env0 { device := some "eth9".data, msg := msg_no_device }
     (by decide) rfl,
   claim_C5.2.2 pF9 env0 { flowid := some "1:9".data, msg := msg_no_class }
     (by decide) rfl⟩

/-! ## Claim C1: the qdisc decision policy and its parse -/

theorem partCh_found {sep : Char} {l : PyStr} (h : sep ∈ l) :
    (partCh sep l).2.1 = true := by
  induction l with
  | nil => simp at h
  | cons c cs ih =>
    rcases List.mem_cons.mp h with rfl | hm
    · simp [partCh]
    · by_cases hc : c = sep
      · simp [partCh, hc]
      · simp only [partCh, if_neg hc]
        exact ih hm

/-- Claim C1: after validation passes and outside check mode, the qdisc
reconciler follows the decision policy — present+MATCH: no mutating command
and no change; present+CHANGE: delete then add; present+DEFAULT: add;
absent+DEFAULT: no mutating command and no change; absent+non-DEFAULT:
delete — where the observed state is read from the second-to-last line of
the show output split on spaces: DEFAULT when token 1 is `pfifo_fast`,
MATCH when token 1 is the desired discipline and token 2 is the handle's
major joined with `:`, CHANGE otherwise. -/
theorem claim_C1 :
    (∀ (p : QdiscParams) (env : Env) (tr0 : Trace) (obs : QdiscState),
      qdisc_validate p env = (.ok (), tr0) →
      env.checkMode = false →
      (∀ c, (env.run c).1 = 0) →
      check_current_qdisc
        (env.run (build_qdisc_command p.device p.qdisc p.handle p.discipline
          "show".data)).2.1 p.discipline p.handle = some obs →
      ((p.state = .present → obs = .MATCH →
        (qdisc_main p env).1 = .exit { changed := false } ∧
        mutTrace (qdisc_main p env).2 = []) ∧
       (p.state = .present → obs = .CHANGE →
        mutTrace (qdisc_main p env).2 =
          [build_qdisc_command p.device p.qdisc p.handle p.discipline "del".data,
           build_qdisc_command p.device p.qdisc p.handle p.discipline "add".data]) ∧
       (p.state = .present → obs = .DEFAULT →
        mutTrace (qdisc_main p env).2 =
          [build_qdisc_command p.device p.qdisc p.handle p.discipline "add".data]) ∧
       (p.state = .absent → obs = .DEFAULT →
        (qdisc_main p env).1 = .exit { changed := false } ∧
        mutTrace (qdisc_main p env).2 = []) ∧
       (p.state = .absent → obs ≠ .DEFAULT →
        mutTrace (qdisc_main p env).2 =
          [build_qdisc_command p.device p.qdisc p.handle p.discipline
            "del".data]))) ∧
    (∀ (out d h : PyStr), 2 ≤ (splitCh '\n' out).length → ':' ∈ h →
      (((qdisc_parse_tokens out).get? 1 = some "pfifo_fast".data →
        check_current_qdisc out d h = some .DEFAULT) ∧
       (∀ t1 t2, (qdisc_parse_tokens out).get? 1 = some t1 →
        t1 ≠ "pfifo_fast".data → t1 = d →
        (qdisc_parse_tokens out).get? 2 = some t2 →
        t2 = (partCh ':' h).1 ++ [':'] →
        check_current_qdisc out d h = some .MATCH) ∧
       (∀ t1, (qdisc_parse_tokens out).get? 1 = some t1 →
        t1 ≠ "pfifo_fast".data → t1 ≠ d →
        check_current_qdisc out d h = some .CHANGE) ∧
       (∀ t1 t2, (qdisc_parse_tokens out).get? 1 = some t1 →
        t1 ≠ "pfifo_fast".data → t1 = d →
        (qdisc_parse_tokens out).get? 2 = some t2 →
        t2 ≠ (partCh ':' h).1 ++ [':'] →
        check_current_qdisc out d h = some .CHANGE))) := by
  constructor
  · intro p env tr0 obs hv hcm hrun hobs
    have h0 : (env.run (build_qdisc_command p.device p.qdisc p.handle
      p.discipline "show".data)).1 = 0 := hrun _
    have hvm : mutTrace tr0 = [] := by
      have hq := qdisc_validate_mut p env
      rw [hv] at hq
      exact hq
    have hmain : qdisc_main p env =
        ((qdisc_act p env).1, tr0 ++ (qdisc_act p env).2) := by
      simp only [qdisc_main, hv]
    refine ⟨fun hst hob => ?_, fun hst hob => ?_, fun hst hob => ?_,
      fun hst hob => ?_, fun hst hob => ?_⟩
    · subst hob
      have hact : qdisc_act p env = (.exit { changed := false },
          [build_qdisc_command p.device p.qdisc p.handle p.discipline
            "show".data]) := by
        simp [qdisc_act, hcm, h0, hobs, hst]
      rw [hmain, hact]
      refine ⟨rfl, ?_⟩
      rw [mutTrace_append, hvm]
      rfl
    · subst hob
      have hd0 : (env.run (build_qdisc_command p.device p.qdisc p.handle
        p.discipline "del".data)).1 = 0 := hrun _
      have ha0 : (env.run (build_qdisc_command p.device p.qdisc p.handle
        p.discipline "add".data)).1 = 0 := hrun _
      have hact : qdisc_act p env =
          (.exit { changed := true, msg := some (env.run
            (build_qdisc_command p.device p.qdisc p.handle p.discipline
              "add".data)).2.1 },
           [build_qdisc_command p.device p.qdisc p.handle p.discipline
              "show".data,
            build_qdisc_command p.device p.qdisc p.handle p.discipline
              "del".data,
            build_qdisc_command p.device p.qdisc p.handle p.discipline
              "add".data]) := by
        simp [qdisc_act, qdisc_tail, set_action, hcm, h0, hobs, hst, hd0, ha0]
      rw [hmain, hact]
      rw [mutTrace_append, hvm]
      rfl
    · subst hob
      have ha0 : (env.run (build_qdisc_command p.device p.qdisc p.handle
        p.discipline "add".data)).1 = 0 := hrun _
      have hact : qdisc_act p env =
          (.exit { changed := true, msg := some (env.run
            (build_qdisc_command p.device p.qdisc p.handle p.discipline
              "add".data)).2.1 },
           [build_qdisc_command p.device p.qdisc p.handle p.discipline
              "show".data,
            build_qdisc_command p.device p.qdisc p.handle p.discipline
              "add".data]) := by
        simp [qdisc_act, qdisc_tail, set_action, hcm, h0, hobs, hst, ha0]
      rw [hmain, hact]
      rw [mutTrace_append, hvm]
      rfl
    · subst hob
      have hact : qdisc_act p env = (.exit { changed := false },
          [build_qdisc_command p.device p.qdisc p.handle p.discipline
            "show".data]) := by
        simp [qdisc_act, qdisc_tail, hcm, h0, hobs, hst]
      rw [hmain, hact]
      refine ⟨rfl, ?_⟩
      rw [mutTrace_append, hvm]
      rfl
    · have hd0 : (env.run (build_qdisc_command p.device p.qdisc p.handle
        p.discipline "del".data)).1 = 0 := hrun _
      have hact : qdisc_act p env =
          (.exit { changed := true, msg := some (env.run
            (build_qdisc_command p.device p.qdisc p.handle p.discipline
              "del".data)).2.1 },
           [build_qdisc_command p.device p.qdisc p.handle p.discipline
              "show".data,
            build_qdisc_command p.device p.qdisc p.handle p.discipline
              "del".data]) := by
        rcases obs with _ | _ | _
        · exact absurd rfl hob
        · simp [qdisc_act, qdisc_tail, set_action, hcm, h0, hobs, hst, hd0]
        · simp [qdisc_act, qdisc_tail, set_action, hcm, h0, hobs, hst, hd0]
      rw [hmain, hact]
      rw [mutTrace_append, hvm]
      rfl
  · intro out d h hlen hcolon
    have hlen' : ¬ (splitCh '\n' out).length < 2 := Nat.not_lt.mpr hlen
    have hjoin : (if (partCh ':' h).2.1 = true then [':'] else ([] : PyStr)) =
        [':'] := if_pos (partCh_found hcolon)
    refine ⟨fun ht1 => ?_, fun t1 t2 ht1 h1 h2 ht2 h4 => ?_,
      fun t1 ht1 h1 h2 => ?_, fun t1 t2 ht1 h1 h2 ht2 h4 => ?_⟩
    · simp only [check_current_qdisc, if_neg hlen']
      rw [ht1]
      dsimp only
      rw [if_pos rfl]
    · subst h2
      simp only [check_current_qdisc, if_neg hlen']
      rw [ht1]
      dsimp only
      rw [if_neg h1, if_pos rfl, ht2]
      dsimp only
      rw [hjoin, if_pos h4]
    · simp only [check_current_qdisc, if_neg hlen']
      rw [ht1]
      dsimp only
      rw [if_neg h1, if_neg h2]
    · subst h2
      simp only [check_current_qdisc, if_neg hlen']
      rw [ht1]
      dsimp only
      rw [if_neg h1, if_pos rfl, ht2]
      dsimp only
      rw [hjoin, if_neg h4]

theorem env0_run_rc : ∀ c : Cmd, (env0.run c).1 = 0 := by
  intro c
  unfold env0
  dsimp only
  split
  · rfl
  · split
    · rfl
    · split <;> rfl

/-- Witness for claim C1: the sample environment observes MATCH for `pQ0`
and the run changes nothing; the sample output parses to MATCH via the
token rule. -/
theorem claim_C1_witness :
    ((qdisc_main pQ0 env0).1 = .exit { changed := false } ∧
     mutTrace (qdisc_main pQ0 env0).2 = []) ∧
    check_current_qdisc sample_qdisc_out "htb".data "1:0".data =
      some QdiscState.MATCH :=
  ⟨(claim_C1.1 pQ0 env0 [] .MATCH rfl rfl env0_run_rc (by decide)).1 rfl rfl,
   (claim_C1.2 sample_qdisc_out "htb".data "1:0".data (by decide)
     (by decide)).2.1 "htb".data "1:".data (by decide) (by decide) rfl
     (by decide) (by decide)⟩

/-! ## Claim C6: a filter against a flowid with no class fails first -/

theorem splitCh_head_of_pre {sep : Char} {n l : PyStr} (hn : sep ∉ n)
    (h : ∃ t, n ++ t = l) : ∃ t, n ++ t = (splitCh sep l).headD [] := by
  induction l generalizing n with
  | nil =>
    obtain ⟨t, ht⟩ := h
    have hnn : n = [] := by
      cases n with
      | nil => rfl
      | cons a n' => simp at ht
    subst hnn
    exact ⟨[], rfl⟩
  | cons c cs ih =>
    obtain ⟨t, ht⟩ := h
    rcases n with _ | ⟨a, n'⟩
    · exact ⟨(splitCh sep (c :: cs)).headD [], rfl⟩
    · injection ht with h1 h2
      subst h1
      simp only [List.mem_cons, not_or] at hn
      obtain ⟨t', ht'⟩ := ih hn.2 ⟨t, h2⟩
      rcases hs : splitCh sep cs with _ | ⟨g, gs⟩
      · exact absurd hs (splitCh_ne_nil sep cs)
      · rw [hs] at ht'
        refine ⟨t', ?_⟩
        simp only [splitCh, if_neg (Ne.symm hn.1), hs]
        simp only [List.headD] at ht' ⊢
        rw [List.cons_append, ht']

theorem splitCh_infix {sep : Char} {n l : PyStr} (hn : sep ∉ n)
    (h : n <:+: l) : ∃ x ∈ splitCh sep l, n <:+: x := by
  induction l with
  | nil =>
    obtain ⟨s, t, hst⟩ := h
    have hnn : n = [] := by
      rcases List.append_eq_nil.mp (List.append_eq_nil.mp hst).1 with ⟨_, h2⟩
      exact h2
    subst hnn
    refine ⟨[], ?_, ⟨[], [], rfl⟩⟩
    simp [splitCh]
  | cons c cs ih =>
    obtain ⟨s, t, hst⟩ := h
    rcases s with _ | ⟨a, s'⟩
    · -- n is a prefix of c :: cs
      by_cases hc : c = sep
      · subst hc
        have hnn : n = [] := by
          rcases n with _ | ⟨b, n'⟩
          · rfl
          · rw [List.nil_append] at hst
            injection hst with h1 _
            exact absurd (h1 ▸ List.mem_cons_self b n') hn
        subst hnn
        refine ⟨[], ?_, ⟨[], [], rfl⟩⟩
        simp [splitCh]
      · have hpre : n ++ t = c :: cs := by
          rw [List.nil_append] at hst
          exact hst
        obtain ⟨t', ht'⟩ := splitCh_head_of_pre hn ⟨t, hpre⟩
        rcases hs : splitCh sep (c :: cs) with _ | ⟨g, gs⟩
        · exact absurd hs (splitCh_ne_nil sep (c :: cs))
        · rw [hs] at ht'
          refine ⟨g, by simp, ⟨[], t', ?_⟩⟩
          simpa using ht'
    · -- n is an infix of cs
      injection hst with h1 h2
      obtain ⟨x, hx, hinf⟩ := ih ⟨s', t, h2⟩
      by_cases hc : c = sep
      · subst hc
        refine ⟨x, ?_, hinf⟩
        simp only [splitCh, if_pos rfl]
        exact List.mem_cons_of_mem _ hx
      · rcases hs : splitCh sep cs with _ | ⟨g, gs⟩
        · exact absurd hs (splitCh_ne_nil sep cs)
        · rw [hs] at hx
          rcases List.mem_cons.mp hx with rfl | hxg
          · obtain ⟨s2, t2, hst2⟩ := hinf
            refine ⟨c :: x, ?_, ⟨c :: s2, t2, by rw [← hst2]; rfl⟩⟩
            simp [splitCh, if_neg hc, hs]
          · refine ⟨x, ?_, hinf⟩
            simp [splitCh, if_neg hc, hs, hxg]

/-- When the needle contains no newline, absence from every line means
absence from the whole output (the code tests the whole output). -/
theorem pyIn_out_of_lines {needle out : PyStr} (hnl : '\n' ∉ needle)
    (hlines : ∀ l ∈ splitCh '\n' out, pyIn needle l = false) :
    pyIn needle out = false := by
  cases hpy : pyIn needle out with
  | false => rfl
  | true =>
    have hin : needle <:+: out := by simpa [pyIn] using hpy
    obtain ⟨x, hx, hinf⟩ := splitCh_infix hnl hin
    have hfalse := hlines x hx
    rw [pyIn, decide_eq_false_iff_not] at hfalse
    exact absurd hinf hfalse

/-- Claim C6: a filter reconciliation whose flowid (a handle, hence
newline-free) appears in no line of the class show output fails with the
missing-class message implicating the flowid, before any mutating tc
command, whatever the desired state. -/
theorem claim_C6 : ∀ (p : FilterParams) (env : Env) (trd trp : Trace)
    (out err : PyStr),
    validate_device env p.device = (.ok true, trd) →
    validate_handle p.parent = true →
    validate_parent env p.parent p.device = (.ok true, trp) →
    validate_classid p.parent p.flowid = some true →
    env.run (_build_generic_command "class".data "show".data p.device) =
      (0, out, err) →
    '\n' ∉ p.flowid →
    (∀ l ∈ splitCh '\n' out, pyIn p.flowid l = false) →
    filter_main p env =
      (.fail { flowid := some p.flowid, msg := msg_no_class },
       (trd ++ trp) ++
         [_build_generic_command "class".data "show".data p.device]) ∧
    mutTrace (filter_main p env).2 = [] := by
  intro p env trd trp out err hdev hhandle hpar hclassid hrun hnl hlines
  have hpy : pyIn p.flowid out = false := pyIn_out_of_lines hnl hlines
  have hval : filter_validate p env =
      (.error (.fail { flowid := some p.flowid, msg := msg_no_class }),
       (trd ++ trp) ++
         [_build_generic_command "class".data "show".data p.device]) := by
    simp only [filter_validate, hdev, hhandle, hpar, hclassid, hrun, hpy]
    simp
  have hmain : filter_main p env =
      (.fail { flowid := some p.flowid, msg := msg_no_class },
       (trd ++ trp) ++
         [_build_generic_command "class".data "show".data p.device]) := by
    simp only [filter_main, hval]
  refine ⟨hmain, ?_⟩
  rw [hmain]
  have hd : mutTrace trd = [] := by
    have hq := validate_device_mut env p.device
    rw [hdev] at hq
    exact hq
  have hp : mutTrace trp = [] := by
    have hq := validate_parent_mut env p.parent p.device
    rw [hpar] at hq
    exact hq
  rw [mutTrace_append, mutTrace_append, hd, hp]
  rfl

/-- Witness for claim C6: the filter task `pF9` (flowid `1:9`) against
`env0`, whose class listing only contains `1:1`. -/
theorem claim_C6_witness :
    filter_main pF9 env0 =
      (.fail { flowid := some "1:9".data, msg := msg_no_class },
       (([] : Trace) ++
          [_build_generic_command "qdisc".data "show".data "eth0".data]) ++
         [_build_generic_command "class".data "show".data "eth0".data]) ∧
    mutTrace (filter_main pF9 env0).2 = [] :=
  claim_C6 pF9 env0 []
    [_build_generic_command "qdisc".data "show".data "eth0".data]
    sample_class_out [] rfl rfl rfl (by decide) rfl (by decide) (by decide)

/-! ## Claim C2: idempotence of a second identical application -/

/-- Claim C2: for each of the three reconcilers, when the desired state is
`present` and the show output now makes the differ report MATCH (the state
a first successful application leaves behind), the run exits with
`changed = false` and executes no mutating tc command. -/
theorem claim_C2 :
    (∀ (p : QdiscParams) (env : Env) (tr0 : Trace),
      qdisc_validate p env = (.ok (), tr0) →
      env.checkMode = false → p.state = .present →
      (env.run (build_qdisc_command p.device p.qdisc p.handle p.discipline
        "show".data)).1 = 0 →
      check_current_qdisc
        (env.run (build_qdisc_command p.device p.qdisc p.handle p.discipline
          "show".data)).2.1 p.discipline p.handle = some .MATCH →
      (qdisc_main p env).1 = .exit { changed := false } ∧
      mutTrace (qdisc_main p env).2 = []) ∧
    (∀ (p : ClassParams) (env : Env) (tr0 : Trace) (ce : PyStr),
      class_validate p env = (.ok ce, tr0) →
      env.checkMode = false → p.state = .present →
      (env.run (_build_generic_command "class".data "show".data p.device)).1 = 0 →
      check_current_class
        (env.run (_build_generic_command "class".data "show".data
          p.device)).2.1 p.classid p.rate ce = some .MATCH →
      (class_main p env).1 = .exit { changed := false } ∧
      mutTrace (class_main p env).2 = []) ∧
    (∀ (p : FilterParams) (env : Env) (tr0 : Trace),
      filter_validate p env = (.ok (), tr0) →
      env.checkMode = false → p.state = .present →
      (env.run (_build_generic_command "filter".data "show".data p.device)).1 = 0 →
      check_current_filter
        (env.run (_build_generic_command "filter".data "show".data
          p.device)).2.1 p.flowid p.priority p.port = some .MATCH →
      (filter_main p env).1 = .exit { changed := false } ∧
      mutTrace (filter_main p env).2 = []) := by
  refine ⟨fun p env tr0 hv hcm hst h0 hobs => ?_,
    fun p env tr0 ce hv hcm hst h0 hobs => ?_,
    fun p env tr0 hv hcm hst h0 hobs => ?_⟩
  · have hvm : mutTrace tr0 = [] := by
      have hq := qdisc_validate_mut p env
      rw [hv] at hq
      exact hq
    have hmain : qdisc_main p env =
        ((qdisc_act p env).1, tr0 ++ (qdisc_act p env).2) := by
      simp only [qdisc_main, hv]
    have hact : qdisc_act p env = (.exit { changed := false },
        [build_qdisc_command p.device p.qdisc p.handle p.discipline
          "show".data]) := by
      simp [qdisc_act, hcm, h0, hobs, hst]
    rw [hmain, hact]
    exact ⟨rfl, by rw [mutTrace_append, hvm]; rfl⟩
  · have hvm : mutTrace tr0 = [] := by
      have hq := class_validate_mut p env
      rw [hv] at hq
      exact hq
    have hmain : class_main p env =
        ((class_act p ce env).1, tr0 ++ (class_act p ce env).2) := by
      simp only [class_main, hv]
    have hact : class_act p ce env = (.exit { changed := false },
        [_build_generic_command "class".data "show".data p.device]) := by
      simp [class_act, hcm, h0, hobs, hst]
    rw [hmain, hact]
    exact ⟨rfl, by rw [mutTrace_append, hvm]; rfl⟩
  · have hvm : mutTrace tr0 = [] := by
      have hq := filter_validate_mut p env
      rw [hv] at hq
      exact hq
    have hmain : filter_main p env =
        ((filter_act p env).1, tr0 ++ (filter_act p env).2) := by
      simp only [filter_main, hv]
    have hact : filter_act p env = (.exit { changed := false },
        [_build_generic_command "filter".data "show".data p.device]) := by
      simp [filter_act, hcm, h0, hobs, hst]
    rw [hmain, hact]
    exact ⟨rfl, by rw [mutTrace_append, hvm]; rfl⟩

/-- Witness for claim C2 on the sample environment, whose show outputs make
all three differs report MATCH for `pQ0`, `pC0`, `pF0`. -/
theorem claim_C2_witness :
    ((qdisc_main pQ0 env0).1 = .exit { changed := false } ∧
     mutTrace (qdisc_main pQ0 env0).2 = []) ∧
    ((class_main pC0 env0).1 = .exit { changed := false } ∧
     mutTrace (class_main pC0 env0).2 = []) ∧
    ((filter_main pF0 env0).1 = .exit { changed := false } ∧
     mutTrace (filter_main pF0 env0).2 = []) :=
  ⟨claim_C2.1 pQ0 env0 [] rfl rfl rfl rfl (by decide),
   claim_C2.2.1 pC0 env0
     [_build_generic_command "qdisc".data "show".data "eth0".data]
     "10mbit".data rfl rfl rfl rfl (by decide),
   claim_C2.2.2 pF0 env0
     [_build_generic_command "qdisc".data "show".data "eth0".data,
      _build_generic_command "class".data "show".data "eth0".data]
     rfl rfl rfl rfl (by decide)⟩

/-! ## Claim C7: check mode (corrected) -/

/-- Counterexample to claim C7 as stated: in check mode the class module
exits with `skipped=True` only — the would-be command is not part of the
result (`exit_json` receives no `command` keyword; the command is only
passed to `module.debug`). -/
theorem claim_C7_counterexample :
    ¬ ∃ e : ExitInfo, (class_main pC0 env0check).1 = Result.exit e ∧
      e.command ≠ none := by
  rintro ⟨e, he, hc⟩
  have h : (class_main pC0 env0check).1 = Result.exit { skipped := true } := by
    decide
  rw [h] at he
  injection he with he2
  rw [← he2] at hc
  exact hc rfl

/-- Claim C7 as amended: with the check flag set (and validation passing)
no mutating tc command runs and each reconciler exits with the distinct
non-mutating `skipped` outcome; the qdisc reconciler reports the would-be
command as part of its result, while the class and filter reconcilers omit
it from the result (they only pass it to the debug log). -/
theorem claim_C7 :
    (∀ (p : QdiscParams) (env : Env) (tr0 : Trace),
      qdisc_validate p env = (.ok (), tr0) → env.checkMode = true →
      (qdisc_main p env).1 =
        .exit { skipped := true,
                command := some (build_qdisc_command p.device p.qdisc p.handle
                  p.discipline (set_action p.state)) } ∧
      mutTrace (qdisc_main p env).2 = []) ∧
    (∀ (p : ClassParams) (env : Env) (tr0 : Trace) (ce : PyStr),
      class_validate p env = (.ok ce, tr0) → env.checkMode = true →
      (class_main p env).1 = .exit { skipped := true } ∧
      mutTrace (class_main p env).2 = []) ∧
    (∀ (p : FilterParams) (env : Env) (tr0 : Trace),
      filter_validate p env = (.ok (), tr0) → env.checkMode = true →
      (filter_main p env).1 = .exit { skipped := true } ∧
      mutTrace (filter_main p env).2 = []) := by
  refine ⟨fun p env tr0 hv hcm => ?_, fun p env tr0 ce hv hcm => ?_,
    fun p env tr0 hv hcm => ?_⟩
  · have hvm : mutTrace tr0 = [] := by
      have hq := qdisc_validate_mut p env
      rw [hv] at hq
      exact hq
    have hmain : qdisc_main p env =
        ((qdisc_act p env).1, tr0 ++ (qdisc_act p env).2) := by
      simp only [qdisc_main, hv]
    have hact : qdisc_act p env =
        (.exit { skipped := true,
                 command := some (build_qdisc_command p.device p.qdisc
                   p.handle p.discipline (set_action p.state)) }, []) := by
      simp [qdisc_act, hcm]
    rw [hmain, hact]
    exact ⟨rfl, by rw [mutTrace_append, hvm]; rfl⟩
  · have hvm : mutTrace tr0 = [] := by
      have hq := class_validate_mut p env
      rw [hv] at hq
      exact hq
    have hmain : class_main p env =
        ((class_act p ce env).1, tr0 ++ (class_act p ce env).2) := by
      simp only [class_main, hv]
    have hact : class_act p ce env = (.exit { skipped := true }, []) := by
      simp [class_act, hcm]
    rw [hmain, hact]
    exact ⟨rfl, by rw [mutTrace_append, hvm]; rfl⟩
  · have hvm : mutTrace tr0 = [] := by
      have hq := filter_validate_mut p env
      rw [hv] at hq
      exact hq
    have hmain : filter_main p env =
        ((filter_act p env).1, tr0 ++ (filter_act p env).2) := by
      simp only [filter_main, hv]
    have hact : filter_act p env = (.exit { skipped := true }, []) := by
      simp [filter_act, hcm]
    rw [hmain, hact]
    exact ⟨rfl, by rw [mutTrace_append, hvm]; rfl⟩

/-- Witness for (amended) claim C7 on the check-mode environment. -/
theorem claim_C7_witness :
    ((qdisc_main pQ0 env0check).1 =
      .exit { skipped := true,
              command := some (build_qdisc_command "eth0".data "root".data
                "1:0".data "htb".data (set_action .present)) } ∧
     mutTrace (qdisc_main pQ0 env0check).2 = []) ∧
    ((class_main pC0 env0check).1 = .exit { skipped := true } ∧
     mutTrace (class_main pC0 env0check).2 = []) ∧
    ((filter_main pF0 env0check).1 = .exit { skipped := true } ∧
     mutTrace (filter_main pF0 env0check).2 = []) :=
  ⟨claim_C7.1 pQ0 env0check [] rfl rfl,
   claim_C7.2.1 pC0 env0check
     [_build_generic_command "qdisc".data "show".data "eth0".data]
     "10mbit".data rfl rfl,
   claim_C7.2.2 pF0 env0check
     [_build_generic_command "qdisc".data "show".data "eth0".data,
      _build_generic_command "class".data "show".data "eth0".data]
     rfl rfl⟩

/-! ## Claim C9: omitted ceil behaves as ceil = rate -/

theorem validate_ceil_flag (s : PyStr) :
    (_validate_ceil s).1 = (_validate_rate s).1 := by
  unfold _validate_ceil _validate_rate rate_syntax_check
  dsimp only
  split
  · rfl
  · rcases hp : pyIntDec ((groupRuns Char.isDigit s).getD 0 []) with _ | n <;>
      simp only [hp]
    by_cases hc :
      (ratesLookup (lowerList ((groupRuns Char.isDigit s).getD 1 []))).isNone =
        true
    · rw [if_pos hc, if_pos hc]
    · rw [if_neg hc, if_neg hc]

/-- Claim C9: a class descriptor with a valid rate and no ceil behaves
exactly as the same descriptor with ceil set to the rate string: the whole
run (result and command trace) coincides. -/
theorem claim_C9 : ∀ (device parent classid discipline rate : PyStr)
    (st : PState) (env : Env),
    (_validate_rate rate).1 = true →
    class_main ⟨device, st, parent, classid, discipline, rate, none⟩ env =
      class_main ⟨device, st, parent, classid, discipline, rate, some rate⟩
        env := by
  intro device parent classid discipline rate st env hrate
  have hr0 : rate ≠ [] := by
    intro h
    rw [h] at hrate
    exact absurd hrate (by decide)
  have hval :
      class_validate ⟨device, st, parent, classid, discipline, rate, none⟩ env =
      class_validate ⟨device, st, parent, classid, discipline, rate, some rate⟩
        env := by
    simp only [class_validate]
    rcases hp : (class_validate_pre device parent classid rate env).1
      with r | u <;> simp only [hp]
    rw [if_neg hr0]
    rw [show (_validate_ceil rate).1 = true from
      (validate_ceil_flag rate).trans hrate]
    simp
  show class_main _ env = class_main _ env
  simp only [class_main, hval]
  rcases hv2 : (class_validate
    ⟨device, st, parent, classid, discipline, rate, some rate⟩ env).1
    with r | ce <;> simp only [hv2]
  rfl

/-- Witness for claim C9 at the concrete task `pC0`. -/
theorem claim_C9_witness :
    class_main ⟨"eth0".data, .present, "1:0".data, "1:1".data, "htb".data,
      "10mbit".data, none⟩ env0 =
    class_main ⟨"eth0".data, .present, "1:0".data, "1:1".data, "htb".data,
      "10mbit".data, some "10mbit".data⟩ env0 :=
  claim_C9 "eth0".data "1:0".data "1:1".data "htb".data "10mbit".data
    .present env0 (by decide)

end TCMod
